import Mathlib

/-!  Formal model of the Bybit spot trading bot (webhook -> sizing -> order flow).

  Numbers are modelled as exact rationals: every arithmetic operation in the
  source (division, floor, multiplication, comparison) is mapped to the
  corresponding exact operation on `ℚ`.  Network calls are modelled by an
  explicit `Venue` environment holding the data the remote endpoints would
  return, and every function that contacts the venue also returns the list of
  venue calls it performed, so that "no venue contact" claims are statable. -/

/-- Python string `.lower()` (ASCII, as used on the short keywords here). -/
def pyLower (s : String) : String := String.mk (s.data.map Char.toLower)

/-- Python string `.upper()`. -/
def pyUpper (s : String) : String := String.mk (s.data.map Char.toUpper)

/-- Python string `.capitalize()`: first character upper-cased, rest lower-cased. -/
def pyCapitalize (s : String) : String :=
  match s.data with
  | [] => s
  | c :: cs => String.mk (c.toUpper :: cs.map Char.toLower)

/-- Does the list start with the given pattern? -/
def listStartsWith : List Char → List Char → Bool
  | _, [] => true
  | [], _ :: _ => false
  | c :: cs, p :: ps => c = p && listStartsWith cs ps

/-- Fueled worker for `pyReplace`; the fuel is an upper bound on the number of
    characters still to be scanned, so recursion is structural. -/
def pyReplaceAux (pat rep : List Char) : ℕ → List Char → List Char
  | 0, l => l
  | _ + 1, [] => []
  | fuel + 1, c :: cs =>
      if listStartsWith (c :: cs) pat then
        rep ++ pyReplaceAux pat rep fuel ((c :: cs).drop pat.length)
      else
        c :: pyReplaceAux pat rep fuel cs

/-- Python `str.replace(pat, rep)` for a non-empty pattern: replaces every
    occurrence, scanning left to right.  (The source only calls it with the
    non-empty pattern string.) -/
def pyReplace (s pat rep : String) : String :=
  if pat.data.isEmpty then s
  else String.mk (pyReplaceAux pat.data rep.data s.data.length s.data)

/-- Python truthiness of an optional float: `None` and `0.0` are falsy. -/
def truthy : Option ℚ → Bool
  | none => false
  | some x => x != 0

/-- `BybitTrader._round_step`: `math.floor(value / step) * step`, returning the
    value unchanged when the step is not positive. -/
def round_step (value step : ℚ) : ℚ :=
  if step ≤ 0 then value else (⌊value / step⌋ : ℚ) * step

/-- The per-symbol instrument record returned by the venue.  The code reads
    `tickSize`, `qtyStep` and `minOrderQty` only; the minimum-notional field
    (`minNotionalValue`) is part of the venue response but is never read by
    `get_price_tick_and_lot` or by any other function of the source. -/
structure InstrumentInfo where
  tickSize : Option ℚ
  qtyStep : Option ℚ
  minOrderQty : Option ℚ
  minNotionalValue : Option ℚ
deriving DecidableEq, Repr

/-- Default used when `qtyStep` is absent (source default string "0.001"). -/
def InstrumentInfo.lot (i : InstrumentInfo) : ℚ := i.qtyStep.getD (1/1000)

/-- `minOrderQty` with the source default (the lot itself). -/
def InstrumentInfo.minQty (i : InstrumentInfo) : ℚ := i.minOrderQty.getD i.lot

/-- `tickSize` with the source default string "0.1". -/
def InstrumentInfo.tick (i : InstrumentInfo) : ℚ := i.tickSize.getD (1/10)

/-- `BybitTrader.get_price_tick_and_lot`: (tick, lot, min_qty). -/
def get_price_tick_and_lot (i : InstrumentInfo) : ℚ × ℚ × ℚ :=
  (i.tick, i.lot, i.minQty)

/-- The data the remote venue would serve during one request:
    the instrument record for the requested symbol (`none` models an empty
    instrument list, i.e. unknown symbol), the top-of-book quote as returned
    by `get_best_price`, and the wallet balances (coin, free). -/
structure Venue where
  info : Option InstrumentInfo
  bid : Option ℚ
  ask : Option ℚ
  balances : List (String × ℚ)
deriving DecidableEq, Repr

/-- Order parameters delivered to the venue by `place_order`. -/
structure OrderParams where
  symbol : String
  side : String
  orderType : String
  timeInForce : String
  marketUnit : Option String
  qty : ℚ
  price : Option ℚ
deriving DecidableEq, Repr

/-- One outbound venue call, for tracing which remote endpoints a flow hits. -/
inductive VenueCall
  | instruments (symbol : String)
  | quote (symbol : String)
  | wallet
  | order (params : OrderParams)
deriving DecidableEq, Repr

/-- The `ValueError`s raised inside `notional_to_qty` and
    `get_instrument_info`, with the data interpolated into their messages kept
    as fields (`tooSmall` carries the `required_usdt = min_qty * price` and the
    `min_qty` that the message text names). -/
inductive SizeError
  | symbolNotFound (symbol : String)
  | pricing
  | tooSmall (required_usdt : ℚ) (min_qty : ℚ)
deriving DecidableEq, Repr

/-- `price = bid or ask` followed by the `if not price` test: Python `or`
    returns the first truthy operand, and the guard rejects a falsy result,
    so `none` here means the `ValueError` for a missing price fires. -/
def refPrice (bid ask : Option ℚ) : Option ℚ :=
  let price := if truthy bid then bid else ask
  if truthy price then price else none

/-- The arithmetic core of the sell branch of `notional_to_qty`, given the
    already-resolved lot, minimum quantity and reference price. -/
def sellQty (lot min_qty p amount_usdt : ℚ) : Except SizeError ℚ :=
  let qty := round_step (amount_usdt / p) lot
  if qty < min_qty then .error (.tooSmall (min_qty * p) min_qty)
  else .ok qty

/-- `BybitTrader.notional_to_qty`.  A buy returns the USDT amount directly
    (spot market buys are quote-denominated) without touching the venue; a
    sell fetches the instrument filters and the quote, divides, rounds down to
    the lot and enforces the minimum order quantity. -/
def notional_to_qty (env : Venue) (symbol : String) (amount_usdt : ℚ)
    (side : String) : Except SizeError ℚ × List VenueCall :=
  if pyLower side = "buy" then (.ok amount_usdt, [])
  else
    match env.info with
    | none => (.error (.symbolNotFound symbol), [.instruments symbol])
    | some i =>
      match refPrice env.bid env.ask with
      | none => (.error .pricing, [.instruments symbol, .quote symbol])
      | some p =>
          (sellQty i.lot i.minQty p amount_usdt,
           [.instruments symbol, .quote symbol])

/-- Outcome of `place_order`: the simulated test-mode response or a live
    submission, each echoing the request parameters. -/
inductive OrderResult
  | simulated (request : OrderParams)
  | submitted (request : OrderParams)
deriving DecidableEq, Repr

/-- Construction of the `params` dict of `BybitTrader.place_order` (identical
    in the test-mode and live branches of the source): for a market buy the
    quantity is a quote amount with `marketUnit = "quote"`; for a market sell
    it is a base amount; otherwise the quantity plus the optional price. -/
def mkOrderParams (symbol side order_type : String) (qty : ℚ)
    (price : Option ℚ) (time_in_force : String) : OrderParams :=
  let base : OrderParams :=
    { symbol := symbol, side := pyCapitalize side,
      orderType := pyCapitalize order_type, timeInForce := time_in_force,
      marketUnit := none, qty := qty, price := none }
  if pyLower order_type = "market" then
    if pyLower side = "buy" then { base with marketUnit := some "quote" }
    else base
  else
    { base with price := price }

/-- `BybitTrader.place_order`: in test mode a synthetic simulated result and
    no venue call; otherwise a live submission through the client. -/
def place_order (test_mode : Bool) (symbol side order_type : String) (qty : ℚ)
    (price : Option ℚ) (time_in_force : String) : OrderResult × List VenueCall :=
  let params := mkOrderParams symbol side order_type qty price time_in_force
  if test_mode then (.simulated params, [])
  else (.submitted params, [.order params])

/-- Status dictionaries returned by `close_position_market`. -/
inductive CloseResult
  | simulatedClose
  | noSpotBalance
  | closingSpot
deriving DecidableEq, Repr

/-- Sum of the `free` entries of the wallet whose coin matches, mirroring the
    accumulation loop of `close_position_market`. -/
def totalFree (balances : List (String × ℚ)) (coin : String) : ℚ :=
  balances.foldl (fun acc c => if c.1 = coin then acc + c.2 else acc) 0

/-- `BybitTrader.close_position_market`: in test mode a simulated close; live,
    it derives the base coin by deleting "USDT" from the symbol, sums the free
    balance, reports `no_spot_balance` when that is not positive, and
    otherwise market-sells the whole balance. -/
def close_position_market (test_mode : Bool) (env : Venue) (symbol : String) :
    CloseResult × List VenueCall :=
  if test_mode then (.simulatedClose, [])
  else
    let base_ccy := pyReplace symbol "USDT" ""
    let total_qty := totalFree env.balances base_ccy
    if total_qty ≤ 0 then (.noSpotBalance, [.wallet])
    else
      let r := place_order test_mode symbol "sell" "market" total_qty none "IOC"
      (.closingSpot, .wallet :: r.2)

/-- Fueled body of `BybitTrader._with_retry`.  The fuel counts the retries
    still allowed, so fuel 0 corresponds to `attempt == 3`, where the source
    re-raises the exception of that very attempt.  `f` gives the outcome the
    wrapped callable produces on each attempt (indexed from 0); the second
    component of the result is the sequence of back-off sleeps performed. -/
def retryLoop {E A : Type} (f : ℕ → Except E A) :
    ℕ → ℕ → ℚ → Except E A × List ℚ
  | fuel, attempt, delay =>
    match f attempt, fuel with
    | .ok v, _ => (.ok v, [])
    | .error e, 0 => (.error e, [])
    | .error _, fuel' + 1 =>
        let r := retryLoop f fuel' (attempt + 1) (delay * 2)
        (r.1, delay :: r.2)

/-- `BybitTrader._with_retry`: up to 4 total attempts, back-off starting at
    0.5 and doubling after each failed attempt. -/
def with_retry {E A : Type} (f : ℕ → Except E A) : Except E A × List ℚ :=
  retryLoop f 3 0 (1/2)

/-- The slice of `Config` consumed by the validator and the order flow. -/
structure Config where
  DEFAULT_ORDER_TYPE : String
  DEFAULT_AMOUNT_USDT : ℚ
  MIN_ORDER_SIZE_USDT : ℚ
  MAX_ORDER_SIZE_USDT : ℚ
  TEST : Bool
deriving DecidableEq, Repr

/-- The fields of the inbound JSON body that the validator and handler read.
    `amount_usdt` is the caller-supplied sizing field of the documented
    payload contract: it is carried here so that its (non-)use is statable,
    and indeed no function below ever reads it. -/
structure WebhookData where
  ts : Option Int
  action : Option String
  direction : Option String
  symbol : Option String
  amount_usdt : Option ℚ
  order_type : Option String
  limit_price : Option ℚ
  leverage : Option ℚ
  note : Option String
deriving DecidableEq, Repr

/-- The validated payload dict built by `parse_and_validate_payload`;
    optional fields are `none` when the source leaves the key unset. -/
structure Payload where
  ts : Option Int
  action : String
  symbol : String
  order_type : String
  leverage : Option ℚ
  note : Option String
  direction : Option String
  amount_usdt : Option ℚ
  limit_price : Option ℚ
deriving DecidableEq, Repr

/-- `webhook_server.parse_and_validate_payload`.  Error strings are the
    source messages with quotes and braces elided.  The notional amount for an
    open action is taken from the configuration, never from the request;
    since the configured amount is already numeric, only its positivity check
    of the source remains. -/
def parse_and_validate_payload (cfg : Config) (data : WebhookData) :
    Except String Payload :=
  match data.action with
  | none => .error "Missing field: action"
  | some action0 =>
    match data.symbol with
    | none => .error "Missing field: symbol"
    | some symbol0 =>
      let action := pyLower action0
      let symbol := pyUpper symbol0
      let order_type := pyLower (data.order_type.getD cfg.DEFAULT_ORDER_TYPE)
      if action ≠ "open" ∧ action ≠ "close" then
        .error "action must be open or close"
      else if order_type ≠ "market" ∧ order_type ≠ "limit" then
        .error "order_type must be market or limit"
      else
        let payload : Payload :=
          { ts := data.ts, action := action, symbol := symbol,
            order_type := order_type, leverage := data.leverage,
            note := data.note, direction := none, amount_usdt := none,
            limit_price := none }
        if action = "open" then
          let direction := pyLower (data.direction.getD "long")
          let amount_usdt := cfg.DEFAULT_AMOUNT_USDT
          if direction ≠ "long" ∧ direction ≠ "short" then
            .error "direction must be long or short when action==open"
          else if amount_usdt ≤ 0 then
            .error "amount_usdt must be positive when action==open"
          else
            let payload := { payload with direction := some direction,
                                          amount_usdt := some amount_usdt }
            if order_type = "limit" then
              match data.limit_price with
              | none => .error "limit_price is required for limit orders"
              | some lp => .ok { payload with limit_price := some lp }
            else .ok payload
        else .ok payload

/-- Error payloads of the HTTP responses produced by the handler after
    authentication: a validation message, the out-of-bounds message (which
    interpolates the two bounds), a sizing `ValueError`, or the generic
    internal-error marker. -/
inductive ErrMsg
  | validation (e : String)
  | outOfBounds (lo hi : ℚ)
  | sizing (e : SizeError)
  | internal
deriving DecidableEq, Repr

/-- Body of a handler response: a 200 echoing an order or close result, or an
    error body. -/
inductive Resp
  | okOrder (r : OrderResult)
  | okClose (r : CloseResult)
  | err (e : ErrMsg)
deriving DecidableEq, Repr

/-- The post-authentication part of `webhook_handler` (webhook_server.py
    lines 143-224): validate the parsed JSON, and for an open action check the
    configured bounds, size via `notional_to_qty` and submit, or for a close
    action liquidate via `close_position_market`.  The result pairs the HTTP
    response (status, body) with the trace of venue calls performed.  The
    catch-all row models the KeyError-to-500 path of the outer handler, which
    is unreachable for validated payloads. -/
def webhook_handler_core (cfg : Config) (env : Venue) (data : WebhookData) :
    (ℕ × Resp) × List VenueCall :=
  match parse_and_validate_payload cfg data with
  | .error e => ((400, .err (.validation e)), [])
  | .ok payload =>
    if payload.action = "open" then
      match payload.direction, payload.amount_usdt with
      | some direction, some amount_usdt =>
        let side := if direction = "long" then "buy" else "sell"
        if amount_usdt < cfg.MIN_ORDER_SIZE_USDT ∨
            amount_usdt > cfg.MAX_ORDER_SIZE_USDT then
          ((400, .err (.outOfBounds cfg.MIN_ORDER_SIZE_USDT
                                    cfg.MAX_ORDER_SIZE_USDT)), [])
        else
          match notional_to_qty env payload.symbol amount_usdt side with
          | (.error e, calls) => ((400, .err (.sizing e)), calls)
          | (.ok qty, calls) =>
            let tif := if payload.order_type = "market" then "IOC" else "GTC"
            let r := place_order cfg.TEST payload.symbol side
                       payload.order_type qty payload.limit_price tif
            ((200, .okOrder r.1), calls ++ r.2)
      | _, _ => ((500, .err .internal), [])
    else
      let r := close_position_market cfg.TEST env payload.symbol
      ((200, .okClose r.1), r.2)

/-- Step lemma: a successful attempt ends the retry loop at once. -/
theorem retryLoop_ok {E A : Type} (f : ℕ → Except E A) (n a : ℕ) (d : ℚ)
    (v : A) (h : f a = .ok v) : retryLoop f n a d = (.ok v, []) := by
  unfold retryLoop
  rw [h]

/-- Step lemma: with no retries left the exception of this attempt escapes. -/
theorem retryLoop_err_zero {E A : Type} (f : ℕ → Except E A) (a : ℕ) (d : ℚ)
    (e : E) (h : f a = .error e) : retryLoop f 0 a d = (.error e, []) := by
  unfold retryLoop
  rw [h]

/-- Step lemma: a failed attempt with retries left sleeps for the current
    delay and continues with the doubled delay. -/
theorem retryLoop_err_succ {E A : Type} (f : ℕ → Except E A) (n a : ℕ) (d : ℚ)
    (e : E) (h : f a = .error e) :
    retryLoop f (n + 1) a d =
      ((retryLoop f n (a + 1) (d * 2)).1,
        d :: (retryLoop f n (a + 1) (d * 2)).2) := by
  conv_lhs => unfold retryLoop
  rw [h]

/-- C3: the retry wrapper makes at most 4 total attempts, sleeping 0.5, 1 and
    2 time-units between consecutive attempts.  If every attempt fails, the
    exception of the 4th attempt itself is re-raised after the three sleeps;
    if the first success is attempt k (0-based, k ≤ 3), its result is returned
    with only the sleeps already performed and no error. -/
theorem with_retry_spec {A : Type} (f : ℕ → Except String A) :
    (∀ e3, f 3 = .error e3 → (∀ i, i < 3 → ∃ e, f i = .error e) →
        with_retry f = (.error e3, [1/2, 1, 2]))
    ∧ (∀ k v, k ≤ 3 → f k = .ok v → (∀ j, j < k → ∃ e, f j = .error e) →
        with_retry f = (.ok v, List.take k [1/2, 1, 2])) := by
  constructor
  · intro e3 h3 hf
    obtain ⟨e0, h0⟩ := hf 0 (by norm_num)
    obtain ⟨e1, h1⟩ := hf 1 (by norm_num)
    obtain ⟨e2, h2⟩ := hf 2 (by norm_num)
    rw [with_retry, retryLoop_err_succ f 2 0 _ e0 h0,
        retryLoop_err_succ f 1 1 _ e1 h1,
        retryLoop_err_succ f 0 2 _ e2 h2,
        retryLoop_err_zero f 3 _ e3 h3]
    norm_num
  · intro k v hk hv hf
    interval_cases k
    · rw [with_retry, retryLoop_ok f 3 0 _ v hv]
      simp
    · obtain ⟨e0, h0⟩ := hf 0 (by norm_num)
      rw [with_retry, retryLoop_err_succ f 2 0 _ e0 h0,
          retryLoop_ok f 2 1 _ v hv]
      norm_num
    · obtain ⟨e0, h0⟩ := hf 0 (by norm_num)
      obtain ⟨e1, h1⟩ := hf 1 (by norm_num)
      rw [with_retry, retryLoop_err_succ f 2 0 _ e0 h0,
          retryLoop_err_succ f 1 1 _ e1 h1,
          retryLoop_ok f 1 2 _ v hv]
      norm_num
    · obtain ⟨e0, h0⟩ := hf 0 (by norm_num)
      obtain ⟨e1, h1⟩ := hf 1 (by norm_num)
      obtain ⟨e2, h2⟩ := hf 2 (by norm_num)
      rw [with_retry, retryLoop_err_succ f 2 0 _ e0 h0,
          retryLoop_err_succ f 1 1 _ e1 h1,
          retryLoop_err_succ f 0 2 _ e2 h2,
          retryLoop_ok f 0 3 _ v hv]
      norm_num

/-- Witness for C3: a call failing on attempts 1 and 2 and succeeding on
    attempt 3 returns the success after sleeping 0.5 and then 1. -/
theorem with_retry_spec_witness :
    with_retry (fun i => if i = 2 then Except.ok (7 : ℚ) else .error "boom")
      = (.ok 7, [1/2, 1]) := by
  have h := (with_retry_spec
      (fun i => if i = 2 then Except.ok (7 : ℚ) else .error "boom")).2 2 7
    (by norm_num) (by norm_num)
    (by
      intro j hj
      exact ⟨"boom", by interval_cases j <;> rfl⟩)
  simpa using h

/-- C7: for a positive step, `_round_step` returns the largest multiple of the
    step that does not exceed the value (it rounds down, never up), and it is
    idempotent. -/
theorem round_step_rounds_down (v s : ℚ) (hs : 0 < s) :
    round_step v s ≤ v
    ∧ (∃ k : ℤ, round_step v s = (k : ℚ) * s)
    ∧ (∀ m : ℤ, (m : ℚ) * s ≤ v → (m : ℚ) * s ≤ round_step v s)
    ∧ round_step (round_step v s) s = round_step v s := by
  have hns : ¬ s ≤ 0 := not_le.mpr hs
  refine ⟨?_, ⟨⌊v / s⌋, by simp [round_step, hns]⟩, ?_, ?_⟩
  · simp only [round_step, if_neg hns]
    calc (⌊v / s⌋ : ℚ) * s ≤ (v / s) * s :=
          mul_le_mul_of_nonneg_right (Int.floor_le _) hs.le
      _ = v := div_mul_cancel₀ v hs.ne'
  · intro m hm
    simp only [round_step, if_neg hns]
    have h1 : (m : ℚ) ≤ v / s := (le_div_iff₀ hs).mpr hm
    have h2 : m ≤ ⌊v / s⌋ := Int.le_floor.mpr h1
    exact mul_le_mul_of_nonneg_right (by exact_mod_cast h2) hs.le
  · simp only [round_step, if_neg hns]
    rw [mul_div_cancel_right₀ _ hs.ne', Int.floor_intCast]

/-- Witness for C7 at value 5 and step 2. -/
theorem round_step_rounds_down_witness :
    round_step 5 2 ≤ (5 : ℚ) :=
  (round_step_rounds_down 5 2 (by norm_num)).1

/-- C10: sizing with a buy side (case-insensitively) returns the notional
    amount unchanged and performs no venue calls at all. -/
theorem notional_to_qty_buy (env : Venue) (symbol : String) (amount : ℚ)
    (side : String) (h : pyLower side = "buy") :
    notional_to_qty env symbol amount side = (.ok amount, []) := by
  simp [notional_to_qty, h]

/-- Witness for C10 with the mixed-case side "Buy". -/
theorem notional_to_qty_buy_witness :
    notional_to_qty ⟨none, none, none, []⟩ "BTCUSDT" 50 "Buy"
      = (.ok 50, []) :=
  notional_to_qty_buy ⟨none, none, none, []⟩ "BTCUSDT" 50 "Buy" (by decide)

/-- For a successfully validated open payload, the direction is the
    lower-cased request direction (defaulting to long), the notional amount is
    the configured default, and that default is positive. -/
theorem parse_open_fields (cfg : Config) (d : WebhookData) (pl : Payload)
    (h : parse_and_validate_payload cfg d = .ok pl) (ha : pl.action = "open") :
    pl.direction = some (pyLower (d.direction.getD "long"))
    ∧ pl.amount_usdt = some cfg.DEFAULT_AMOUNT_USDT
    ∧ 0 < cfg.DEFAULT_AMOUNT_USDT := by
  simp only [parse_and_validate_payload] at h
  repeat' split at h
  all_goals simp_all
  all_goals (obtain rfl := h; simp_all)

/-- Claim C4: two request bodies differing only in the caller-supplied
    amount field validate identically, and a validated open payload always
    carries the statically configured default amount; the caller value is
    never used. -/
theorem payload_amount_is_config (cfg : Config) (d : WebhookData)
    (a1 a2 : Option ℚ) :
    parse_and_validate_payload cfg { d with amount_usdt := a1 }
      = parse_and_validate_payload cfg { d with amount_usdt := a2 }
    ∧ (∀ pl, parse_and_validate_payload cfg d = .ok pl → pl.action = "open" →
        pl.amount_usdt = some cfg.DEFAULT_AMOUNT_USDT) := by
  constructor
  · cases d
    rfl
  · intro pl h ha
    exact (parse_open_fields cfg d pl h ha).2.1

/-- Witness for C4: amount fields 999999 and 1 produce the same validated
    payload. -/
theorem payload_amount_is_config_witness :
    parse_and_validate_payload
        ⟨"market", 50, 5, 10000, false⟩
        ⟨none, some "open", some "long", some "BTCUSDT", some 999999, none,
         none, none, none⟩
      = parse_and_validate_payload
        ⟨"market", 50, 5, 10000, false⟩
        ⟨none, some "open", some "long", some "BTCUSDT", some 1, none,
         none, none, none⟩ := by
  have h := (payload_amount_is_config ⟨"market", 50, 5, 10000, false⟩
      ⟨none, some "open", some "long", some "BTCUSDT", none, none,
       none, none, none⟩ (some 999999) (some 1)).1
  simpa using h

/-- Claim C8: a validation failure ends the flow before the bounds check,
    and an out-of-bounds notional amount of an open action terminates the
    flow with the bounds error and an empty venue-call trace, whatever the
    venue holds - so the bounds check sits strictly after validation and
    before any sizing call. -/
theorem bounds_check_gates_flow (cfg : Config) (data : WebhookData) :
    (∀ e, parse_and_validate_payload cfg data = .error e →
        ∀ env, webhook_handler_core cfg env data
          = ((400, .err (.validation e)), []))
    ∧ (∀ pl a, parse_and_validate_payload cfg data = .ok pl →
        pl.action = "open" → pl.amount_usdt = some a →
        (a < cfg.MIN_ORDER_SIZE_USDT ∨ a > cfg.MAX_ORDER_SIZE_USDT) →
        ∀ env, webhook_handler_core cfg env data
          = ((400, .err (.outOfBounds cfg.MIN_ORDER_SIZE_USDT
                                      cfg.MAX_ORDER_SIZE_USDT)), [])) := by
  constructor
  · intro e he env
    simp [webhook_handler_core, he]
  · intro pl a hp ha hamt hoob env
    obtain ⟨hdir, hfix, hpos⟩ := parse_open_fields cfg data pl hp ha
    simp [webhook_handler_core, hp, ha, hdir, hamt, hoob]

/-- Evaluation of the validator on a concrete open/long/market request. -/
theorem parse_eval_test :
    parse_and_validate_payload ⟨"market", 50, 100, 10000, false⟩
        ⟨none, some "open", some "long", some "BTCUSDT", none, none,
         none, none, none⟩
      = .ok ⟨none, "open", "BTCUSDT", "market", none, none, some "long",
             some 50, none⟩ := by
  simp only [parse_and_validate_payload, Option.getD,
    show pyLower "open" = "open" from by decide,
    show pyUpper "BTCUSDT" = "BTCUSDT" from by decide,
    show pyLower "market" = "market" from by decide,
    show pyLower "long" = "long" from by decide]
  norm_num
  simp

/-- Witness for C8: configured amount 50 below the minimum bound 100 is
    rejected with no venue contact. -/
theorem bounds_check_gates_flow_witness :
    webhook_handler_core ⟨"market", 50, 100, 10000, false⟩
        ⟨none, none, none, []⟩
        ⟨none, some "open", some "long", some "BTCUSDT", none, none,
         none, none, none⟩
      = ((400, .err (.outOfBounds 100 10000)), []) := by
  have h := (bounds_check_gates_flow ⟨"market", 50, 100, 10000, false⟩
      ⟨none, some "open", some "long", some "BTCUSDT", none, none,
       none, none, none⟩).2
      ⟨none, "open", "BTCUSDT", "market", none, none, some "long",
       some 50, none⟩ 50
      parse_eval_test rfl rfl (by norm_num) ⟨none, none, none, []⟩
  simpa using h

/-- Claim C9: a close request whose base-asset free balance sums to zero or
    less yields the no-balance outcome, with the wallet fetch as the only
    venue call and in particular no order submission. -/
theorem close_no_balance (cfg : Config) (env : Venue) (data : WebhookData)
    (pl : Payload)
    (hparse : parse_and_validate_payload cfg data = .ok pl)
    (hact : pl.action = "close") (hTest : cfg.TEST = false)
    (hbal : totalFree env.balances (pyReplace pl.symbol "USDT" "") ≤ 0) :
    webhook_handler_core cfg env data
      = ((200, .okClose .noSpotBalance), [.wallet])
    ∧ ∀ q, VenueCall.order q ∉ (webhook_handler_core cfg env data).2 := by
  have h : webhook_handler_core cfg env data
      = ((200, .okClose .noSpotBalance), [.wallet]) := by
    simp [webhook_handler_core, hparse, hact, close_position_market, hTest,
      hbal]
  refine ⟨h, ?_⟩
  rw [h]
  simp

/-- Witness for C9: closing BTCUSDT while holding only ETH reports
    no_spot_balance and submits nothing. -/
theorem close_no_balance_witness :
    webhook_handler_core ⟨"market", 50, 5, 10000, false⟩
        ⟨none, none, none, [("ETH", 2)]⟩
        ⟨none, some "close", none, some "BTCUSDT", none, none,
         none, none, none⟩
      = ((200, .okClose .noSpotBalance), [.wallet]) := by
  have h := close_no_balance ⟨"market", 50, 5, 10000, false⟩
      ⟨none, none, none, [("ETH", 2)]⟩
      ⟨none, some "close", none, some "BTCUSDT", none, none,
       none, none, none⟩
      ⟨none, "close", "BTCUSDT", "market", none, none, none, none, none⟩
      (by
        simp only [parse_and_validate_payload, Option.getD,
          show pyLower "close" = "close" from by decide,
          show pyUpper "BTCUSDT" = "BTCUSDT" from by decide,
          show pyLower "market" = "market" from by decide]
        simp)
      rfl rfl
      (by
        simp only [show pyReplace "BTCUSDT" "USDT" "" = "BTC" from by decide]
        norm_num [totalFree]
        simp)
  exact h.1

/-- Claim C5: when the step-rounded sell quantity falls below the minimum
    order quantity, sizing fails with the ValueError whose message names the
    required notional min_qty * price, and the handler answers 400 with that
    error and never reaches the order endpoint. -/
theorem undersized_sell_rejected (cfg : Config) (env : Venue)
    (data : WebhookData) (pl : Payload) (i : InstrumentInfo) (p a : ℚ)
    (s : String)
    (hi : env.info = some i) (hp : refPrice env.bid env.ask = some p)
    (hsmall : round_step (a / p) i.lot < i.minQty) :
    (notional_to_qty env s a "sell").1
      = .error (.tooSmall (i.minQty * p) i.minQty)
    ∧ (parse_and_validate_payload cfg data = .ok pl → pl.action = "open" →
        pl.direction = some "short" → pl.amount_usdt = some a →
        ¬ (a < cfg.MIN_ORDER_SIZE_USDT ∨ a > cfg.MAX_ORDER_SIZE_USDT) →
        webhook_handler_core cfg env data
          = ((400, .err (.sizing (.tooSmall (i.minQty * p) i.minQty))),
             [.instruments pl.symbol, .quote pl.symbol])) := by
  have key : ∀ sym, notional_to_qty env sym a "sell"
      = (.error (.tooSmall (i.minQty * p) i.minQty),
         [.instruments sym, .quote sym]) := by
    intro sym
    simp [notional_to_qty, hi, hp, sellQty, hsmall,
      show pyLower "sell" = "sell" from by decide]
  refine ⟨by rw [key s], ?_⟩
  intro hparse hact hdir hamt hbounds
  simp [webhook_handler_core, hparse, hact, hdir, hamt, hbounds,
    key pl.symbol]

/-- Witness for C5 at step 0.01, min qty 0.1, amount 1, price 50000: the
    error names the required notional 5000 USDT. -/
theorem undersized_sell_rejected_witness :
    webhook_handler_core ⟨"market", 1, 1, 10000, false⟩
        ⟨some ⟨none, some (1/100), some (1/10), none⟩, some 50000, none, []⟩
        ⟨none, some "open", some "short", some "BTCUSDT", none, none,
         none, none, none⟩
      = ((400, .err (.sizing (.tooSmall 5000 (1/10)))),
         [.instruments "BTCUSDT", .quote "BTCUSDT"]) := by
  have h := (undersized_sell_rejected ⟨"market", 1, 1, 10000, false⟩
      ⟨some ⟨none, some (1/100), some (1/10), none⟩, some 50000, none, []⟩
      ⟨none, some "open", some "short", some "BTCUSDT", none, none,
       none, none, none⟩
      ⟨none, "open", "BTCUSDT", "market", none, none, some "short",
       some 1, none⟩
      ⟨none, some (1/100), some (1/10), none⟩ 50000 1 "BTCUSDT"
      rfl
      (by norm_num [refPrice, truthy])
      (by norm_num [round_step, InstrumentInfo.lot, InstrumentInfo.minQty])).2
      (by
        simp only [parse_and_validate_payload, Option.getD,
          show pyLower "open" = "open" from by decide,
          show pyUpper "BTCUSDT" = "BTCUSDT" from by decide,
          show pyLower "market" = "market" from by decide,
          show pyLower "short" = "short" from by decide]
        norm_num
        simp)
      rfl rfl rfl (by norm_num)
  simpa [InstrumentInfo.minQty, InstrumentInfo.lot,
    show ((10:ℚ))⁻¹ * 50000 = 5000 from by norm_num] using h

/-- Case analysis of the reference-price selection `bid or ask`. -/
theorem refPrice_cases (bid ask : Option ℚ) :
    (truthy bid = true → refPrice bid ask = bid)
    ∧ (truthy bid = false → truthy ask = true → refPrice bid ask = ask)
    ∧ (truthy bid = false → truthy ask = false → refPrice bid ask = none) := by
  unfold refPrice
  rcases h1 : truthy bid <;> rcases h2 : truthy ask <;> simp [h1, h2]

/-- The sell-quantity arithmetic never raises the missing-price error. -/
theorem sellQty_ne_pricing (lot mq p x : ℚ) :
    sellQty lot mq p x ≠ .error .pricing := by
  simp only [sellQty]
  split <;> simp

/-- Claim C6 (amended): sell sizing uses the best bid as reference price
    when it is present and nonzero, and otherwise falls back to the best ask;
    the missing-price error occurs exactly when neither side of the quote is
    available (present and nonzero). -/
theorem sell_ref_price_bid_then_ask (env : Venue) (i : InstrumentInfo)
    (s : String) (a : ℚ) (hi : env.info = some i) :
    ((notional_to_qty env s a "sell").1 = .error .pricing ↔
        truthy env.bid = false ∧ truthy env.ask = false)
    ∧ (∀ b, env.bid = some b → b ≠ 0 →
        (notional_to_qty env s a "sell").1 = sellQty i.lot i.minQty b a)
    ∧ (∀ q, truthy env.bid = false → env.ask = some q → q ≠ 0 →
        (notional_to_qty env s a "sell").1 = sellQty i.lot i.minQty q a) := by
  have hb := refPrice_cases env.bid env.ask
  refine ⟨?_, ?_, ?_⟩
  · constructor
    · intro h
      rcases h1 : truthy env.bid <;> rcases h2 : truthy env.ask
      · exact ⟨rfl, rfl⟩
      · rcases ha : env.ask with _ | q
        · simp [truthy, ha] at h2
        · simp [notional_to_qty, hi,
            show pyLower "sell" = "sell" from by decide,
            show refPrice env.bid env.ask = some q from by
              rw [hb.2.1 h1 h2, ha]] at h
          exact absurd h (sellQty_ne_pricing _ _ _ _)
      · rcases hbid : env.bid with _ | b
        · simp [truthy, hbid] at h1
        · simp [notional_to_qty, hi,
            show pyLower "sell" = "sell" from by decide,
            show refPrice env.bid env.ask = some b from by
              rw [hb.1 h1, hbid]] at h
          exact absurd h (sellQty_ne_pricing _ _ _ _)
      · rcases hbid : env.bid with _ | b
        · simp [truthy, hbid] at h1
        · simp [notional_to_qty, hi,
            show pyLower "sell" = "sell" from by decide,
            show refPrice env.bid env.ask = some b from by
              rw [hb.1 h1, hbid]] at h
          exact absurd h (sellQty_ne_pricing _ _ _ _)
    · rintro ⟨h1, h2⟩
      simp [notional_to_qty, hi,
        show pyLower "sell" = "sell" from by decide, hb.2.2 h1 h2]
  · intro b hbid hne
    have h1 : truthy env.bid = true := by simp [truthy, hbid, hne]
    simp [notional_to_qty, hi,
      show pyLower "sell" = "sell" from by decide,
      show refPrice env.bid env.ask = some b from by rw [hb.1 h1, hbid]]
  · intro q h1 hask hne
    have h2 : truthy env.ask = true := by simp [truthy, hask, hne]
    simp [notional_to_qty, hi,
      show pyLower "sell" = "sell" from by decide,
      show refPrice env.bid env.ask = some q from by rw [hb.2.1 h1 h2, hask]]

/-- Witness for C6 (amended): with a live bid of 100 the sizing result is
    the sell arithmetic at price 100. -/
theorem sell_ref_price_witness :
    (notional_to_qty ⟨some ⟨none, some (1/1000), some (1/1000), none⟩,
        some 100, none, []⟩ "BTCUSDT" 50 "sell").1
      = sellQty (1/1000) (1/1000) 100 50 := by
  have h := (sell_ref_price_bid_then_ask
      ⟨some ⟨none, some (1/1000), some (1/1000), none⟩, some 100, none, []⟩
      ⟨none, some (1/1000), some (1/1000), none⟩ "BTCUSDT" 50 rfl).2.1 100
      rfl (by norm_num)
  simpa [InstrumentInfo.lot, InstrumentInfo.minQty] using h

/-- Counterexample to C6 as stated: with no bid at all and an ask of 100,
    sell sizing does not fail - it succeeds using the ask as reference price,
    so the reference price is not always the best bid. -/
theorem sell_uses_ask_when_bid_absent :
    (Venue.mk (some ⟨none, some (1/1000), some (1/1000), none⟩)
        none (some 100) []).bid = none
    ∧ (notional_to_qty ⟨some ⟨none, some (1/1000), some (1/1000), none⟩,
        none, some 100, []⟩ "BTCUSDT" 50 "sell").1 = .ok (1/2) := by
  refine ⟨rfl, ?_⟩
  simp [notional_to_qty, refPrice, truthy, sellQty,
    show pyLower "sell" = "sell" from by decide,
    InstrumentInfo.lot, InstrumentInfo.minQty]
  norm_num [round_step]

/-- Counterexample to C2: on the claimed inputs (step 0.001, venue minimum
    notional 5, amount 1, price 25000) the code does not raise the quantity
    to 0.001 with an advisory note; it fails with the too-small ValueError
    naming 25 USDT, because no minimum-notional correction exists. -/
theorem no_min_notional_correction_cex :
    (notional_to_qty ⟨some ⟨none, some (1/1000), none, some 5⟩,
        some 25000, none, []⟩ "BTCUSDT" 1 "sell").1
      = .error (.tooSmall 25 (1/1000))
    ∧ (notional_to_qty ⟨some ⟨none, some (1/1000), none, some 5⟩,
        some 25000, none, []⟩ "BTCUSDT" 1 "sell").1 ≠ .ok (1/1000) := by
  have h : (notional_to_qty ⟨some ⟨none, some (1/1000), none, some 5⟩,
      some 25000, none, []⟩ "BTCUSDT" 1 "sell").1
      = .error (.tooSmall 25 (1/1000)) := by
    simp [notional_to_qty, refPrice, truthy, sellQty,
      show pyLower "sell" = "sell" from by decide,
      InstrumentInfo.lot, InstrumentInfo.minQty]
    norm_num [round_step]
  exact ⟨h, by rw [h]; simp⟩

/-- Claim C2 (amended): sizing is wholly independent of the venue minimum
    notional field - changing it changes nothing - and on the claimed inputs
    the sell path fails with the too-small error naming 25 USDT instead of
    correcting the quantity upward. -/
theorem min_notional_never_consulted (env : Venue) (i : InstrumentInfo)
    (m : Option ℚ) (s : String) (a : ℚ) (side : String)
    (hi : env.info = some i) :
    notional_to_qty
        { env with info := some { i with minNotionalValue := m } } s a side
      = notional_to_qty env s a side
    ∧ (notional_to_qty ⟨some ⟨none, some (1/1000), none, some 5⟩,
        some 25000, none, []⟩ "BTCUSDT" 1 "sell").1
      = .error (.tooSmall 25 (1/1000)) := by
  constructor
  · simp [notional_to_qty, hi, InstrumentInfo.lot, InstrumentInfo.minQty]
  · simp [notional_to_qty, refPrice, truthy, sellQty,
      show pyLower "sell" = "sell" from by decide,
      InstrumentInfo.lot, InstrumentInfo.minQty]
    norm_num [round_step]

/-- Witness for C2 (amended): minimum notional 7 versus absent makes no
    difference to sizing. -/
theorem min_notional_never_consulted_witness :
    notional_to_qty ⟨some ⟨none, some (1/100), some (1/10), some 7⟩,
        some 50000, none, []⟩ "BTCUSDT" 1 "sell"
      = notional_to_qty ⟨some ⟨none, some (1/100), some (1/10), none⟩,
        some 50000, none, []⟩ "BTCUSDT" 1 "sell" := by
  have h := (min_notional_never_consulted
      ⟨some ⟨none, some (1/100), some (1/10), none⟩, some 50000, none, []⟩
      ⟨none, some (1/100), some (1/10), none⟩ (some 7) "BTCUSDT" 1 "sell"
      rfl).1
  simpa using h

/-- The order parameters always carry exactly the quantity they were
    given. -/
theorem mkOrderParams_qty (symbol side order_type : String) (qty : ℚ)
    (price : Option ℚ) (tif : String) :
    (mkOrderParams symbol side order_type qty price tif).qty = qty := by
  unfold mkOrderParams
  split
  · split <;> rfl
  · rfl

/-- Counterexample to C1: a close request with a held balance of 0.15 on a
    symbol whose step is 0.1 and minimum quantity 0.2 delivers a sell order
    of quantity 0.15 to the venue - below the minimum order quantity and not
    a multiple of the step - so the invariant does not hold for every
    delivered order. -/
theorem delivered_qty_violates_filters :
    webhook_handler_core ⟨"market", 50, 5, 10000, false⟩
        ⟨some ⟨none, some (1/10), some (2/10), none⟩, some 25000, none,
         [("BTC", 3/20)]⟩
        ⟨none, some "close", none, some "BTCUSDT", none, none, none, none,
         none⟩
      = ((200, .okClose .closingSpot),
         [.wallet, .order (mkOrderParams "BTCUSDT" "sell" "market" (3/20)
            none "IOC")])
    ∧ (mkOrderParams "BTCUSDT" "sell" "market" (3/20) none "IOC").qty
        < (InstrumentInfo.mk none (some (1/10)) (some (2/10)) none).minQty
    ∧ ¬ ∃ k : ℕ, (mkOrderParams "BTCUSDT" "sell" "market" (3/20)
          none "IOC").qty
        = (k : ℚ) * (InstrumentInfo.mk none (some (1/10)) (some (2/10))
            none).lot := by
  refine ⟨?_, ?_, ?_⟩
  · norm_num [webhook_handler_core, parse_and_validate_payload, Option.getD,
      show pyLower "close" = "close" from by decide,
      show pyUpper "BTCUSDT" = "BTCUSDT" from by decide,
      show pyLower "market" = "market" from by decide,
      show ¬ ("close" : String) = "open" from by decide,
      show ¬ ("market" : String) = "limit" from by decide,
      show pyReplace "BTCUSDT" "USDT" "" = "BTC" from by decide,
      close_position_market, totalFree, place_order]
  · rw [mkOrderParams_qty]
    norm_num [InstrumentInfo.minQty, InstrumentInfo.lot]
  · rintro ⟨k, hk⟩
    rw [mkOrderParams_qty] at hk
    simp only [InstrumentInfo.lot, Option.getD] at hk
    have h2 : ((2 * k : ℕ) : ℚ) = 3 := by push_cast; linarith
    have h3 : (2 * k : ℕ) = 3 := by exact_mod_cast h2
    omega

/-- Claim C1 (amended): an open sell delivered through the webhook flow
    submits exactly the sized quantity, which is a non-negative integer
    multiple of the quantity step and at least the minimum order quantity;
    buys and closes are not constrained this way and no minimum-notional
    check exists. -/
theorem open_sell_qty_legal (cfg : Config) (env : Venue) (data : WebhookData)
    (pl : Payload) (i : InstrumentInfo) (p q a : ℚ)
    (hparse : parse_and_validate_payload cfg data = .ok pl)
    (hact : pl.action = "open") (hdir : pl.direction = some "short")
    (hamt : pl.amount_usdt = some a)
    (hbounds : ¬ (a < cfg.MIN_ORDER_SIZE_USDT ∨ a > cfg.MAX_ORDER_SIZE_USDT))
    (hTest : cfg.TEST = false)
    (hi : env.info = some i) (hp : refPrice env.bid env.ask = some p)
    (hppos : 0 < p) (hlot : 0 < i.lot)
    (hq : (notional_to_qty env pl.symbol a "sell").1 = .ok q) :
    (∃ ps : OrderParams,
        webhook_handler_core cfg env data
          = ((200, .okOrder (.submitted ps)),
             [.instruments pl.symbol, .quote pl.symbol, .order ps])
        ∧ ps.qty = q)
    ∧ (∃ k : ℕ, q = (k : ℚ) * i.lot) ∧ i.minQty ≤ q := by
  have hfull : notional_to_qty env pl.symbol a "sell"
      = (sellQty i.lot i.minQty p a,
         [.instruments pl.symbol, .quote pl.symbol]) := by
    simp [notional_to_qty, hi, hp, show pyLower "sell" = "sell" from by decide]
  rw [hfull] at hq
  replace hq : sellQty i.lot i.minQty p a = .ok q := hq
  have ha : 0 < a := by
    obtain ⟨-, hfix, hpos⟩ := parse_open_fields cfg data pl hparse hact
    rw [hamt] at hfix
    rw [Option.some.injEq] at hfix
    rw [hfix]
    exact hpos
  have hqshape : round_step (a / p) i.lot = q ∧ i.minQty ≤ q := by
    simp only [sellQty] at hq
    split at hq
    · cases hq
    · rename_i hnl
      rw [Except.ok.injEq] at hq
      exact ⟨hq, by rw [← hq]; exact not_lt.mp hnl⟩
  refine ⟨?_, ?_, hqshape.2⟩
  · refine ⟨mkOrderParams pl.symbol "sell" pl.order_type q pl.limit_price
      (if pl.order_type = "market" then "IOC" else "GTC"), ?_,
      mkOrderParams_qty _ _ _ _ _ _⟩
    simp [webhook_handler_core, hparse, hact, hdir, hamt, hbounds, hfull,
      hq, place_order, hTest]
  · have hnl : ¬ i.lot ≤ 0 := not_le.mpr hlot
    have hnn : (0 : ℚ) ≤ a / p / i.lot :=
      div_nonneg (div_nonneg ha.le hppos.le) hlot.le
    have hfl : (0 : ℤ) ≤ ⌊a / p / i.lot⌋ := Int.floor_nonneg.mpr hnn
    refine ⟨(⌊a / p / i.lot⌋).toNat, ?_⟩
    rw [← hqshape.1]
    simp only [round_step, if_neg hnl]
    congr 1
    exact_mod_cast (Int.toNat_of_nonneg hfl).symm

/-- Witness for C1 (amended): a concrete open short delivers quantity
    0.002 = 2 x step, at least the minimum 0.001. -/
theorem open_sell_qty_legal_witness :
    (∃ ps : OrderParams,
        webhook_handler_core ⟨"market", 50, 5, 10000, false⟩
            ⟨some ⟨none, some (1/1000), some (1/1000), none⟩, some 25000,
             none, []⟩
            ⟨none, some "open", some "short", some "BTCUSDT", none, none,
             none, none, none⟩
          = ((200, .okOrder (.submitted ps)),
             [.instruments "BTCUSDT", .quote "BTCUSDT", .order ps])
        ∧ ps.qty = 1/500)
    ∧ (∃ k : ℕ, (1/500 : ℚ) = (k : ℚ) * (1/1000))
    ∧ ((1/1000 : ℚ) ≤ 1/500) := by
  have h := open_sell_qty_legal ⟨"market", 50, 5, 10000, false⟩
      ⟨some ⟨none, some (1/1000), some (1/1000), none⟩, some 25000, none, []⟩
      ⟨none, some "open", some "short", some "BTCUSDT", none, none,
       none, none, none⟩
      ⟨none, "open", "BTCUSDT", "market", none, none, some "short",
       some 50, none⟩
      ⟨none, some (1/1000), some (1/1000), none⟩ 25000 (1/500) 50
      (by
        simp only [parse_and_validate_payload, Option.getD,
          show pyLower "open" = "open" from by decide,
          show pyUpper "BTCUSDT" = "BTCUSDT" from by decide,
          show pyLower "market" = "market" from by decide,
          show pyLower "short" = "short" from by decide]
        norm_num
        simp)
      rfl rfl rfl (by norm_num) rfl rfl
      (by norm_num [refPrice, truthy])
      (by norm_num)
      (by norm_num [InstrumentInfo.lot])
      (by norm_num [notional_to_qty, refPrice, truthy, sellQty, round_step,
        InstrumentInfo.lot, InstrumentInfo.minQty,
        show pyLower "sell" = "sell" from by decide,
        show ¬ ("sell" : String) = "buy" from by decide])
  simpa [InstrumentInfo.lot, InstrumentInfo.minQty] using h
